import Mathlib

/-!
# Verification of the security gate of `tdc`

A shallow embedding of `core/security_models.py` (the models `SecurityEvent`,
`IPBlock`, `RateLimitTracker`) and `core/middleware.py`
(`SecurityMiddleware`), together with proofs about the rate-limiting,
IP-blocking and auto-escalation behaviour.

Modelling conventions:

* Time is modelled in integer microseconds (`Int` values), the exact
  resolution of Python `datetime` values; `timezone.now()` becomes an explicit
  `now : Int` argument threaded through each operation.
* Database tables become Lean lists of rows, in primary-key (creation) order;
  the auto-increment primary key of `RateLimitTracker` is made explicit
  because `check_rate_limit` orders by `id` when collapsing duplicates.
* `int(...)` applied to a nonnegative float of seconds is truncation toward
  zero, modelled by `Int.tdiv` on the microsecond count.
* Free-text columns that no proof inspects (`user_agent`, the JSON `details`
  of `SecurityEvent`, the `user` foreign key) are omitted from the embedded
  rows; the `details` text of `IPBlock` is kept because `block_ip` overwrites
  it on re-blocking.
-/

set_option maxRecDepth 20000

namespace Tdc

/-- Number of microseconds in one second; time points and durations are
integer microsecond counts (`Int`), the resolution of Python datetimes. -/
def usPerSec : Int := 1000000

/-- Python `int(td.total_seconds())` for a timedelta of `us` microseconds:
truncation toward zero of the (exact) rational number of seconds. -/
def pyIntSec (us : Int) : Int := Int.tdiv us usPerSec

/-- Character-list test that `s` has the string `p` as an initial segment;
Python `s.startswith(p)`. -/
def charsLeadWith : List Char → List Char → Bool
  | [], _ => true
  | _ :: _, [] => false
  | c :: cs, d :: ds => c == d && charsLeadWith cs ds

/-- Python `s.startswith(p)`. -/
def strStartsWith (s p : String) : Bool := charsLeadWith p.data s.data

/-! ## `RateLimitTracker` (core/security_models.py) -/

/-- One row of the `RateLimitTracker` table. -/
structure TrackerRow where
  id : Nat
  ip_address : String
  endpoint : String
  request_count : Nat
  window_start : Int
  last_request : Int
deriving DecidableEq

/-- The `RateLimitTracker` table: rows in primary-key order plus the next
auto-increment id. -/
structure TrackerDB where
  rows : List TrackerRow
  nextId : Nat
deriving DecidableEq

/-- The lookup `ip_address=…, endpoint=…, window_start__gte=cutoff` used by
`get_or_create` inside `RateLimitTracker.check_rate_limit`. -/
def trackerMatches (ip endpoint : String) (cutoff : Int) (r : TrackerRow) : Bool :=
  r.ip_address == ip && r.endpoint == endpoint && decide (cutoff ≤ r.window_start)

/-- The tail of `RateLimitTracker.check_rate_limit` after the tracker row has
been selected: reject without incrementing when the limit is reached,
otherwise increment `request_count`, save, and allow. -/
def finishCheck (db : TrackerDB) (tracker : TrackerRow) (now : Int)
    (max_requests : Nat) (window_seconds : Nat) : (Bool × Nat × Int) × TrackerDB :=
  if max_requests ≤ tracker.request_count then
    ((false, tracker.request_count,
      tracker.window_start + (window_seconds : Int) * usPerSec - now), db)
  else
    let tracker' := { tracker with
      request_count := tracker.request_count + 1, last_request := now }
    ((true, tracker'.request_count, 0),
     { db with rows := db.rows.map (fun r => if r.id == tracker.id then tracker' else r) })

/-- The purge `cls.objects.filter(window_start__lt=cutoff).delete()` at the
start of `check_rate_limit`: the rows whose window has not expired. -/
def purgedRows (db : TrackerDB) (cutoff : Int) : List TrackerRow :=
  db.rows.filter (fun r => !(decide (r.window_start < cutoff)))

/-- `trackers.order_by('id').first()` on a non-empty result set: the matching
row with the smallest primary key. -/
def pickTracker (m : TrackerRow) (ms : List TrackerRow) : TrackerRow :=
  ms.foldl (fun best r => if r.id < best.id then r else best) m

/-- `RateLimitTracker.check_rate_limit(ip_address, endpoint, max_requests,
window_seconds)`: purge expired windows, find-or-create the tracker row of the
current window (collapsing duplicates onto the row with the smallest id when
`get_or_create` raises `MultipleObjectsReturned`), then reject or increment.
Returns `(is_allowed, current_count, time_until_reset)` and the new table. -/
def check_rate_limit (db : TrackerDB) (now : Int) (ip endpoint : String)
    (max_requests : Nat) (window_seconds : Nat) : (Bool × Nat × Int) × TrackerDB :=
  let window_start := now - (window_seconds : Int) * usPerSec
  let rows := purgedRows db window_start
  match rows.filter (trackerMatches ip endpoint window_start) with
  | [] =>
      -- get_or_create creates the row: request_count keeps its default 0,
      -- window_start comes from the defaults, id is the next primary key
      let tracker : TrackerRow := ⟨db.nextId, ip, endpoint, 0, now, now⟩
      finishCheck ⟨rows ++ [tracker], db.nextId + 1⟩ tracker now max_requests window_seconds
  | m :: ms =>
      -- one match: get_or_create returns it; several matches:
      -- MultipleObjectsReturned is caught, the row with the smallest id is
      -- kept and the other matching rows are deleted
      let tracker := pickTracker m ms
      finishCheck
        ⟨rows.filter (fun r =>
          !(trackerMatches ip endpoint window_start r) || r.id == tracker.id), db.nextId⟩
        tracker now max_requests window_seconds

/-! ## `SecurityEvent` and `IPBlock` (core/security_models.py) -/

/-- One row of the `SecurityEvent` table (free-text columns that no proof
inspects are omitted). -/
structure SecurityEventRow where
  event_type : String
  severity : String
  ip_address : String
  endpoint : String
  method : String
  timestamp : Int
deriving DecidableEq

/-- One row of the `IPBlock` table. -/
structure IPBlockRow where
  ip_address : String
  reason : String
  details : String
  blocked_at : Int
  blocked_until : Option Int
  is_permanent : Bool
  blocked_by : Option String
  attempt_count : Nat
  last_attempt : Int
deriving DecidableEq

/-- `IPBlock.is_blocked`: permanent blocks are always blocked; a timed block
is blocked exactly while `now < blocked_until`. -/
def IPBlockRow.is_blocked (b : IPBlockRow) (now : Int) : Bool :=
  if b.is_permanent then true
  else match b.blocked_until with
    | some u => decide (now < u)
    | none => false

/-- The three security tables together: the event log, the block table and the
rate-limit tracker table. -/
structure SecurityDB where
  events : List SecurityEventRow
  blocks : List IPBlockRow
  trackers : TrackerDB
deriving DecidableEq

/-- The empty database: no events, no blocks, no tracker rows. -/
def emptyDB : SecurityDB := ⟨[], [], ⟨[], 0⟩⟩

/-- `IPBlock.block_ip(ip_address, reason, duration_hours, permanent,
blocked_by, details)`: `update_or_create` on `ip_address` — a fresh row keeps
the field default `attempt_count = 0`, an existing row has its
reason/details/expiry/permanent/acting-admin overwritten and then
`increment_attempts()` run on it — followed by one `ip_blocked` high-severity
`SecurityEvent`. -/
def block_ip (db : SecurityDB) (now : Int) (ip reason : String)
    (duration_hours : Nat) (permanent : Bool) (blocked_by : Option String)
    (details : String) : SecurityDB :=
  let blocked_until : Option Int :=
    if permanent then none else some (now + (duration_hours : Int) * 3600 * usPerSec)
  let blocks :=
    if (db.blocks.filter (fun b => b.ip_address == ip)).isEmpty then
      -- created: attempt_count keeps the model-field default 0
      db.blocks ++ [⟨ip, reason, details, now, blocked_until, permanent, blocked_by, 0, now⟩]
    else
      -- not created: overwrite the defaults, then increment_attempts()
      db.blocks.map (fun b =>
        if b.ip_address == ip then
          { b with reason := reason, details := details, blocked_until := blocked_until,
                   is_permanent := permanent, blocked_by := blocked_by,
                   attempt_count := b.attempt_count + 1, last_attempt := now }
        else b)
  { db with blocks := blocks,
            events := db.events ++ [⟨"ip_blocked", "high", ip, "", "", now⟩] }

/-- `IPBlock.is_ip_blocked`: `false` when no row exists for the address,
otherwise `is_blocked()` of that row. -/
def is_ip_blocked (db : SecurityDB) (now : Int) (ip : String) : Bool :=
  match db.blocks.find? (fun b => b.ip_address == ip) with
  | some b => b.is_blocked now
  | none => false

/-- `IPBlock.unblock_ip`: delete the row if present, report whether one was
found. -/
def unblock_ip (db : SecurityDB) (ip : String) : Bool × SecurityDB :=
  match db.blocks.find? (fun b => b.ip_address == ip) with
  | some _ => (true, { db with blocks := db.blocks.filter (fun b => !(b.ip_address == ip)) })
  | none => (false, db)

/-! ## `SecurityMiddleware` (core/middleware.py) -/

/-- The Django settings the middleware reads. The settings module of the
repository is not under `src/`, so the middleware is parametrised by these
values instead of fixing them. -/
structure Settings where
  MAX_REGISTER_ATTEMPTS : Nat
  MAX_LOGIN_ATTEMPTS : Nat
  RATE_LIMIT_WINDOW : Nat
  MAX_API_CALLS_PER_MINUTE : Nat
  AUTO_BLOCK_THRESHOLD : Nat
  BLOCK_DURATION_HOURS : Nat
deriving DecidableEq

/-- Modelled from the spec: the settings module is missing from `src/`, and
the spec pins the values used by the end-to-end scenarios —
`max_api_calls_per_minute = 60` (§8 scenario 3), `max_login_attempts = 5`
with `window = 60 s` (§8 scenario 1).  The remaining values are not named
numerically anywhere in the spec; representative positive values are chosen
and no theorem depends on them. -/
def specSettings : Settings :=
  { MAX_REGISTER_ATTEMPTS := 5
    MAX_LOGIN_ATTEMPTS := 5
    RATE_LIMIT_WINDOW := 60
    MAX_API_CALLS_PER_MINUTE := 60
    AUTO_BLOCK_THRESHOLD := 5
    BLOCK_DURATION_HOURS := 24 }

/-- One entry of `SecurityMiddleware.SENSITIVE_ENDPOINTS`: a path prefix with
its limit, window and display name. -/
structure EndpointRule where
  pathStart : String
  max_requests : Nat
  window : Nat
  name : String
deriving DecidableEq

/-- `SecurityMiddleware.SENSITIVE_ENDPOINTS`, in dict insertion order. -/
def SENSITIVE_ENDPOINTS (s : Settings) : List EndpointRule :=
  [⟨"/api/auth/users/", s.MAX_REGISTER_ATTEMPTS, s.RATE_LIMIT_WINDOW, "register"⟩,
   ⟨"/api/auth/token/login/", s.MAX_LOGIN_ATTEMPTS, s.RATE_LIMIT_WINDOW, "login"⟩,
   ⟨"/api/auth/token/logout/", 10, 60, "logout"⟩]

/-- An inbound request as the middleware sees it: resolved client address,
path, method, and the status code the wrapped application would answer with
if the request is forwarded (`get_response`). -/
structure Request where
  ip : String
  path : String
  method : String
  appStatus : Nat
deriving DecidableEq

/-- The outcome of the middleware for one request: the 403 block response,
a 429 rate-limit response carrying `retry_after = int(time_until_reset)`,
or the application's own response passed through. -/
inductive GateResponse where
  | accessDenied
  | rateLimited (retry_after : Int)
  | forwarded (status : Nat)
deriving DecidableEq

/-- HTTP status code of a `GateResponse`. -/
def GateResponse.status : GateResponse → Nat
  | .accessDenied => 403
  | .rateLimited _ => 429
  | .forwarded s => s

/-- `SecurityMiddleware._auto_block_ip`: a 'auto'-reason block for
`settings.BLOCK_DURATION_HOURS`, with the formatted detail text. -/
def auto_block_ip (s : Settings) (db : SecurityDB) (now : Int) (ip : String)
    (reason : String) (attempt_count : Nat) : SecurityDB :=
  block_ip db now ip "auto" s.BLOCK_DURATION_HOURS false none
    (reason ++ " (" ++ toString attempt_count ++ " attempts)")

/-- Step 2 of `SecurityMiddleware.__call__`: walk `SENSITIVE_ENDPOINTS` and
rate-limit every rule whose path prefix matches; on the first rejection log a
`rate_limit` event, auto-block when the count exceeds the limit by more than
5, and answer 429. -/
def sensitiveCheck (s : Settings) (db : SecurityDB) (now : Int) (req : Request) :
    List EndpointRule → Option GateResponse × SecurityDB
  | [] => (none, db)
  | rule :: rest =>
    if strStartsWith req.path rule.pathStart then
      let ((allowed, count, reset), trackers) :=
        check_rate_limit db.trackers now req.ip rule.pathStart rule.max_requests rule.window
      let db := { db with trackers := trackers }
      if allowed then
        sensitiveCheck s db now req rest
      else
        let db := { db with events := db.events ++
          [⟨"rate_limit", "medium", req.ip, rule.pathStart, req.method, now⟩] }
        let db := if rule.max_requests + 5 < count then
            auto_block_ip s db now req.ip ("Excessive " ++ rule.name ++ " attempts") count
          else db
        (some (.rateLimited (pyIntSec reset)), db)
    else
      sensitiveCheck s db now req rest

/-- Step 3 of `SecurityMiddleware.__call__`: general rate limiting of every
path matching `^/api/` against the `api_general` bucket; on rejection log a
`rate_limit` event, and when the count exceeds three times the general limit
auto-block and log a critical `ddos` event. -/
def generalCheck (s : Settings) (db : SecurityDB) (now : Int) (req : Request) :
    Option GateResponse × SecurityDB :=
  if strStartsWith req.path "/api/" then
    let ((allowed, count, reset), trackers) :=
      check_rate_limit db.trackers now req.ip "api_general" s.MAX_API_CALLS_PER_MINUTE 60
    let db := { db with trackers := trackers }
    if allowed then (none, db)
    else
      let db := { db with events := db.events ++
        [⟨"rate_limit", "low", req.ip, req.path, req.method, now⟩] }
      let db := if s.MAX_API_CALLS_PER_MINUTE * 3 < count then
          let db := auto_block_ip s db now req.ip "Potential DDoS attack" count
          { db with events := db.events ++
            [⟨"ddos", "critical", req.ip, req.path, "", now⟩] }
        else db
      (some (.rateLimited (pyIntSec reset)), db)
  else (none, db)

/-- `SecurityMiddleware._handle_failed_login`: log a `login_fail` event, count
the `login_fail` events of this address in the last 15 minutes, and when the
count reaches `AUTO_BLOCK_THRESHOLD` auto-block and log a critical
`brute_force` event. -/
def handle_failed_login (s : Settings) (db : SecurityDB) (now : Int) (req : Request) :
    SecurityDB :=
  let db := { db with events := db.events ++
    [⟨"login_fail", "medium", req.ip, req.path, req.method, now⟩] }
  let recent_fails := (db.events.filter (fun e =>
      e.event_type == "login_fail" && e.ip_address == req.ip &&
      decide (now - 15 * 60 * usPerSec ≤ e.timestamp))).length
  if s.AUTO_BLOCK_THRESHOLD ≤ recent_fails then
    let db := auto_block_ip s db now req.ip "Brute force login attempts" recent_fails
    { db with events := db.events ++ [⟨"brute_force", "critical", req.ip, "", "", now⟩] }
  else db

/-- `SecurityMiddleware.__call__`: reject blocked addresses with 403, enforce
the sensitive-endpoint and general rate limits with 429, otherwise forward to
the application, then watch for failed logins (401 on the login path) and
successful registrations (201 on POST to the registration path). -/
def securityMiddleware (s : Settings) (db : SecurityDB) (now : Int) (req : Request) :
    GateResponse × SecurityDB :=
  -- 1. check if IP is blocked
  if is_ip_blocked db now req.ip then
    (.accessDenied, { db with events := db.events ++
      [⟨"ip_blocked", "high", req.ip, req.path, req.method, now⟩] })
  else
    -- 2. rate limiting for sensitive endpoints
    match sensitiveCheck s db now req (SENSITIVE_ENDPOINTS s) with
    | (some resp, db) => (resp, db)
    | (none, db) =>
      -- 3. general API rate limiting
      match generalCheck s db now req with
      | (some resp, db) => (resp, db)
      | (none, db) =>
        -- process the request
        -- 4. monitor failed authentication attempts
        let db := if strStartsWith req.path "/api/auth/token/login/" && req.appStatus == 401
          then handle_failed_login s db now req else db
        -- 5. monitor successful registrations
        let db := if strStartsWith req.path "/api/auth/users/" && req.method == "POST"
                     && req.appStatus == 201
          then { db with events := db.events ++
            [⟨"register_success", "low", req.ip, req.path, req.method, now⟩] }
          else db
        (.forwarded req.appStatus, db)

/-- Run the middleware over a list of timestamped requests, collecting the
responses in order. -/
def runGate (s : Settings) : SecurityDB → List (Int × Request) → SecurityDB × List GateResponse
  | db, [] => (db, [])
  | db, (now, req) :: rest =>
    let (resp, db') := securityMiddleware s db now req
    let (dbEnd, resps) := runGate s db' rest
    (dbEnd, resp :: resps)

/-- Arguments of one `check_rate_limit` call. -/
structure CheckCall where
  now : Int
  ip : String
  endpoint : String
  max_requests : Nat
  window_seconds : Nat
deriving DecidableEq

/-- Run a list of `check_rate_limit` calls in order, collecting the returned
triples. -/
def runChecks : TrackerDB → List CheckCall → TrackerDB × List (Bool × Nat × Int)
  | db, [] => (db, [])
  | db, c :: rest =>
    let (res, db') := check_rate_limit db c.now c.ip c.endpoint c.max_requests c.window_seconds
    let (dbEnd, results) := runChecks db' rest
    (dbEnd, res :: results)

/-- Every tracker row for the key `(ip, ep)` is within the limit `maxr`. -/
def keyBound (ip ep : String) (maxr : Nat) (db : TrackerDB) : Prop :=
  ∀ r ∈ db.rows, r.ip_address = ip → r.endpoint = ep → r.request_count ≤ maxr

/-! ## A fallible-storage variant of the middleware

The spec demands that a storage error while writing a `SecurityEvent` or
`IPBlock` row must not change the already-decided response.  To settle that
claim, the middleware is re-embedded with every table write made fallible: an
oracle decides, per write attempt, whether the storage layer raises.  The
source has no `try/except` around any of these writes, so a raise propagates
out of `__call__`; the embedding mirrors that by propagating `Except.error`. -/

/-- A failure oracle: `oracle wc = true` means the `wc`-th write attempt of
the request raises a storage error. -/
abbrev WriteOracle := Nat → Bool

/-- Fallible `SecurityEvent.objects.create`. -/
def createEventE (oracle : WriteOracle) (db : SecurityDB) (wc : Nat)
    (ev : SecurityEventRow) : Except Unit (SecurityDB × Nat) :=
  if oracle wc then .error ()
  else .ok ({ db with events := db.events ++ [ev] }, wc + 1)

/-- Fallible `IPBlock.block_ip`: the upsert write, then the `ip_blocked`
event write; either may raise, and the source does not catch it. -/
def block_ipE (oracle : WriteOracle) (db : SecurityDB) (wc : Nat) (now : Int)
    (ip reason : String) (duration_hours : Nat) (permanent : Bool)
    (blocked_by : Option String) (details : String) : Except Unit (SecurityDB × Nat) :=
  if oracle wc then .error ()
  else
    let wc := wc + 1
    let blocked_until : Option Int :=
      if permanent then none else some (now + (duration_hours : Int) * 3600 * usPerSec)
    let blocks :=
      if (db.blocks.filter (fun b => b.ip_address == ip)).isEmpty then
        db.blocks ++ [⟨ip, reason, details, now, blocked_until, permanent, blocked_by, 0, now⟩]
      else
        db.blocks.map (fun b =>
          if b.ip_address == ip then
            { b with reason := reason, details := details, blocked_until := blocked_until,
                     is_permanent := permanent, blocked_by := blocked_by,
                     attempt_count := b.attempt_count + 1, last_attempt := now }
          else b)
    createEventE oracle { db with blocks := blocks } wc ⟨"ip_blocked", "high", ip, "", "", now⟩

/-- Fallible `SecurityMiddleware._auto_block_ip`. -/
def auto_block_ipE (oracle : WriteOracle) (s : Settings) (db : SecurityDB) (wc : Nat)
    (now : Int) (ip : String) (reason : String) (attempt_count : Nat) :
    Except Unit (SecurityDB × Nat) :=
  block_ipE oracle db wc now ip "auto" s.BLOCK_DURATION_HOURS false none
    (reason ++ " (" ++ toString attempt_count ++ " attempts)")

/-- Fallible step 2 of `SecurityMiddleware.__call__`. -/
def sensitiveCheckE (oracle : WriteOracle) (s : Settings) (db : SecurityDB) (wc : Nat)
    (now : Int) (req : Request) :
    List EndpointRule → Except Unit (Option GateResponse × SecurityDB × Nat)
  | [] => .ok (none, db, wc)
  | rule :: rest =>
    if strStartsWith req.path rule.pathStart then
      let ((allowed, count, reset), trackers) :=
        check_rate_limit db.trackers now req.ip rule.pathStart rule.max_requests rule.window
      let db := { db with trackers := trackers }
      if allowed then
        sensitiveCheckE oracle s db wc now req rest
      else do
        let (db, wc) ← createEventE oracle db wc
          ⟨"rate_limit", "medium", req.ip, rule.pathStart, req.method, now⟩
        let (db, wc) ← if rule.max_requests + 5 < count then
            auto_block_ipE oracle s db wc now req.ip
              ("Excessive " ++ rule.name ++ " attempts") count
          else .ok (db, wc)
        .ok (some (.rateLimited (pyIntSec reset)), db, wc)
    else
      sensitiveCheckE oracle s db wc now req rest

/-- Fallible step 3 of `SecurityMiddleware.__call__`. -/
def generalCheckE (oracle : WriteOracle) (s : Settings) (db : SecurityDB) (wc : Nat)
    (now : Int) (req : Request) : Except Unit (Option GateResponse × SecurityDB × Nat) :=
  if strStartsWith req.path "/api/" then
    let ((allowed, count, reset), trackers) :=
      check_rate_limit db.trackers now req.ip "api_general" s.MAX_API_CALLS_PER_MINUTE 60
    let db := { db with trackers := trackers }
    if allowed then .ok (none, db, wc)
    else do
      let (db, wc) ← createEventE oracle db wc
        ⟨"rate_limit", "low", req.ip, req.path, req.method, now⟩
      let (db, wc) ← if s.MAX_API_CALLS_PER_MINUTE * 3 < count then do
          let (db, wc) ← auto_block_ipE oracle s db wc now req.ip "Potential DDoS attack" count
          createEventE oracle db wc ⟨"ddos", "critical", req.ip, req.path, "", now⟩
        else .ok (db, wc)
      .ok (some (.rateLimited (pyIntSec reset)), db, wc)
  else .ok (none, db, wc)

/-- Fallible `SecurityMiddleware._handle_failed_login`. -/
def handle_failed_loginE (oracle : WriteOracle) (s : Settings) (db : SecurityDB) (wc : Nat)
    (now : Int) (req : Request) : Except Unit (SecurityDB × Nat) := do
  let (db, wc) ← createEventE oracle db wc
    ⟨"login_fail", "medium", req.ip, req.path, req.method, now⟩
  let recent_fails := (db.events.filter (fun e =>
      e.event_type == "login_fail" && e.ip_address == req.ip &&
      decide (now - 15 * 60 * usPerSec ≤ e.timestamp))).length
  if s.AUTO_BLOCK_THRESHOLD ≤ recent_fails then do
    let (db, wc) ← auto_block_ipE oracle s db wc now req.ip
      "Brute force login attempts" recent_fails
    createEventE oracle db wc ⟨"brute_force", "critical", req.ip, "", "", now⟩
  else .ok (db, wc)

/-- Fallible `SecurityMiddleware.__call__`: identical decision logic, but any
storage error raised by a telemetry write propagates to the caller. -/
def securityMiddlewareE (oracle : WriteOracle) (s : Settings) (db : SecurityDB) (wc : Nat)
    (now : Int) (req : Request) : Except Unit (GateResponse × SecurityDB × Nat) :=
  if is_ip_blocked db now req.ip then do
    let (db, wc) ← createEventE oracle db wc
      ⟨"ip_blocked", "high", req.ip, req.path, req.method, now⟩
    .ok (.accessDenied, db, wc)
  else do
    match ← sensitiveCheckE oracle s db wc now req (SENSITIVE_ENDPOINTS s) with
    | (some resp, db, wc) => .ok (resp, db, wc)
    | (none, db, wc) =>
      match ← generalCheckE oracle s db wc now req with
      | (some resp, db, wc) => .ok (resp, db, wc)
      | (none, db, wc) => do
        let (db, wc) ←
          (if strStartsWith req.path "/api/auth/token/login/" && req.appStatus == 401
           then handle_failed_loginE oracle s db wc now req else .ok (db, wc))
        let (db, wc) ←
          (if strStartsWith req.path "/api/auth/users/" && req.method == "POST"
              && req.appStatus == 201
           then createEventE oracle db wc
             ⟨"register_success", "low", req.ip, req.path, req.method, now⟩
           else .ok (db, wc))
        .ok (.forwarded req.appStatus, db, wc)

/-! ## Scenario inputs used by the concrete theorems -/

/-- The login path, the second key of `SENSITIVE_ENDPOINTS`. -/
def loginPath : String := "/api/auth/token/login/"

/-- A general-API request that matches `^/api/` but none of the sensitive
prefixes; the application would answer 200. -/
def apiReq (ip : String) : Request := ⟨ip, "/api/loadouts/", "GET", 200⟩

/-- A login request that reaches the application and fails: the application
answers 401. -/
def loginReq (ip : String) : Request := ⟨ip, loginPath, "POST", 401⟩

/-- The `login_fail` event `_handle_failed_login` logs for `loginReq ip`. -/
def loginFailEv (ip : String) (now : Int) : SecurityEventRow :=
  ⟨"login_fail", "medium", ip, loginPath, "POST", now⟩

/-- The database after `k` failed logins from `ip` at time 0, all below the
auto-block threshold: `k` `login_fail` events, no blocks, and both tracker
rows at count `k` (meaningful for `1 ≤ k`). -/
def preState (ip : String) (k : Nat) : SecurityDB :=
  { events := List.replicate k (loginFailEv ip 0)
    blocks := []
    trackers := ⟨[⟨0, ip, loginPath, k, 0, 0⟩, ⟨1, ip, "api_general", k, 0, 0⟩], 2⟩ }

/-- The detail text `_auto_block_ip` formats for the brute-force block. -/
def bruteDetails (n : Nat) : String :=
  "Brute force login attempts" ++ " (" ++ toString n ++ " attempts)"

/-- The database after the failed login that reaches the auto-block
threshold `n`: the `n` `login_fail` events, the `ip_blocked` and
`brute_force` events, and exactly one auto block row. -/
def bruteFinalState (s : Settings) (ip : String) (n : Nat) : SecurityDB :=
  { events := List.replicate n (loginFailEv ip 0) ++
      [⟨"ip_blocked", "high", ip, "", "", 0⟩, ⟨"brute_force", "critical", ip, "", "", 0⟩]
    blocks := [⟨ip, "auto", bruteDetails n, 0,
      some ((s.BLOCK_DURATION_HOURS : Int) * 3600 * usPerSec), false, none, 0, 0⟩]
    trackers := ⟨[⟨0, ip, loginPath, n, 0, 0⟩, ⟨1, ip, "api_general", n, 0, 0⟩], 2⟩ }

/-- The 181-request scenario of the spec: one client, all requests in the same
60-second window on a general API path. -/
def ddosRun : SecurityDB × List GateResponse :=
  runGate specSettings emptyDB (List.replicate 181 ((0 : Int), apiReq "203.0.113.7"))

/-- The spec settings with a general limit of 1 per minute, for the
fractional-second rejection scenario. -/
def lowLimit : Settings := { specSettings with MAX_API_CALLS_PER_MINUTE := 1 }

/-- The spec settings with a general limit of 0: every general-API request is
rejected immediately. -/
def zeroLimit : Settings := { specSettings with MAX_API_CALLS_PER_MINUTE := 0 }

/-- One allowed request at `t = 0`, then a second request 59.5 s into the
60 s window, at the general limit 1: the second rejection happens 0.5 s
before the window resets. -/
def halfSecondRun : SecurityDB × List GateResponse :=
  runGate lowLimit emptyDB [((0 : Int), apiReq "9.9.9.9"), ((59500000 : Int), apiReq "9.9.9.9")]

/-- Decidable equality of `Except` results, for evaluating the fallible
middleware on concrete inputs. -/
instance {ε α : Type} [DecidableEq ε] [DecidableEq α] : DecidableEq (Except ε α) :=
  fun a b =>
    match a, b with
    | .error e, .error e' =>
      if h : e = e' then isTrue (by rw [h]) else isFalse (by simp [h])
    | .ok x, .ok y =>
      if h : x = y then isTrue (by rw [h]) else isFalse (by simp [h])
    | .error _, .ok _ => isFalse (by simp)
    | .ok _, .error _ => isFalse (by simp)

/-- A store holding one permanent manual block of 1.2.3.4. -/
def permBlockDB : SecurityDB :=
  ⟨[], [⟨"1.2.3.4", "manual", "", 0, none, true, none, 0, 0⟩], ⟨[], 0⟩⟩

/-- A first manual block of 1.2.3.4 for 24 hours from the empty store. -/
def blockOnce : SecurityDB := block_ip emptyDB 0 "1.2.3.4" "manual" 24 false none "first"

/-- Blocking 1.2.3.4 a second time, one second later. -/
def blockTwice : SecurityDB :=
  block_ip blockOnce 1000000 "1.2.3.4" "manual" 24 false none "second"

/-! ## Helper lemmas -/

theorem pickTracker_mem (ms : List TrackerRow) : ∀ m, pickTracker m ms ∈ m :: ms := by
  induction ms with
  | nil => intro m; simp [pickTracker]
  | cons r ms ih =>
    intro m
    have h := ih (if r.id < m.id then r else m)
    simp only [pickTracker, List.foldl_cons] at h ⊢
    by_cases hc : r.id < m.id <;> simp [hc] at h ⊢ <;> tauto

theorem pickTracker_eq_of_all_eq (r : TrackerRow) :
    ∀ (ms : List TrackerRow) (m : TrackerRow), m = r → (∀ x ∈ ms, x = r) →
      pickTracker m ms = r := by
  intro ms
  induction ms with
  | nil => intro m hm _; simpa [pickTracker] using hm
  | cons x ms ih =>
    intro m hm hall
    have hx : x = r := hall x (by simp)
    simp only [pickTracker, List.foldl_cons]
    have : (if x.id < m.id then x else m) = r := by
      subst hm hx; simp
    exact ih _ this (fun y hy => hall y (by simp [hy]))

/-! ## C8: the `is_blocked` invariant -/

/-- C8: for every `IPBlock` row, `is_blocked()` is true exactly when the row
is permanent or has a non-null expiry lying strictly in the future (so a
permanent block is blocked at every time and a timed block stops being
blocked at and after its expiry instant), and `is_ip_blocked` is false for a
client address with no row. -/
theorem is_blocked_characterisation :
    (∀ (b : IPBlockRow) (now : Int),
        b.is_blocked now = true ↔
          (b.is_permanent = true ∨ ∃ u, b.blocked_until = some u ∧ now < u)) ∧
    (∀ (db : SecurityDB) (now : Int) (ip : String),
        (∀ b ∈ db.blocks, b.ip_address ≠ ip) → is_ip_blocked db now ip = false) := by
  constructor
  · intro b now
    unfold IPBlockRow.is_blocked
    by_cases hp : b.is_permanent
    · simp [hp]
    · cases hb : b.blocked_until <;> simp [hp, hb]
  · intro db now ip h
    unfold is_ip_blocked
    cases hf : db.blocks.find? (fun b => b.ip_address == ip) with
    | none => rfl
    | some b =>
      have hb := List.find?_some hf
      have hmem : b ∈ db.blocks := List.mem_of_find?_eq_some hf
      exact absurd (by simpa using hb) (h b hmem)

/-- Witness for C8: the no-row case evaluated on the empty store. -/
theorem is_blocked_characterisation_witness :
    is_ip_blocked emptyDB 0 "1.2.3.4" = false :=
  is_blocked_characterisation.2 emptyDB 0 "1.2.3.4" (by simp [emptyDB])

/-! ## C4: `block_ip` upsert behaviour -/

/-- C4 counterexample: blocking the same address twice in a row from the empty
store yields one row with `attempt_count = 1`, not 2 — the creating call
leaves the field default 0 in place, `increment_attempts` only runs on the
second call. -/
theorem block_ip_twice_attempt_count_cex :
    (blockOnce.blocks.map (fun b => b.attempt_count) = [0]) ∧
    (blockTwice.blocks.map (fun b => b.attempt_count) = [1]) ∧
    ¬(blockTwice.blocks.map (fun b => b.attempt_count) = [2]) := by decide

/-- C4 amended: `block_ip` upserts — with no row present it creates one whose
`attempt_count` is 0 (the model-field default) and whose expiry is
`now + duration_hours` (null when permanent); with a row present it overwrites
reason, details, expiry, permanent flag and acting admin and increments
`attempt_count`; hence blocking the same client twice in a row yields exactly
one row with `attempt_count = 1`, and `is_blocked` is true after each of the
two calls. -/
theorem block_ip_upsert :
    (∀ (db : SecurityDB) (now : Int) (ip reason : String) (d : Nat) (perm : Bool)
        (adm : Option String) (det : String),
        (∀ b ∈ db.blocks, b.ip_address ≠ ip) →
        (block_ip db now ip reason d perm adm det).blocks =
          db.blocks ++ [⟨ip, reason, det, now,
            if perm then none else some (now + (d : Int) * 3600 * usPerSec),
            perm, adm, 0, now⟩]) ∧
    (∀ (db : SecurityDB) (now : Int) (ip reason : String) (d : Nat) (perm : Bool)
        (adm : Option String) (det : String) (b : IPBlockRow),
        b ∈ db.blocks → b.ip_address = ip →
        (block_ip db now ip reason d perm adm det).blocks =
          db.blocks.map (fun b => if b.ip_address == ip then
            { b with reason := reason, details := det,
                     blocked_until :=
                       if perm then none else some (now + (d : Int) * 3600 * usPerSec),
                     is_permanent := perm, blocked_by := adm,
                     attempt_count := b.attempt_count + 1, last_attempt := now }
            else b)) ∧
    (∀ (ip r₁ r₂ det₁ det₂ : String) (d₁ d₂ : Nat) (adm₁ adm₂ : Option String)
        (n₁ n₂ : Int), 0 < d₁ → 0 < d₂ →
        is_ip_blocked (block_ip emptyDB n₁ ip r₁ d₁ false adm₁ det₁) n₁ ip = true ∧
        is_ip_blocked
          (block_ip (block_ip emptyDB n₁ ip r₁ d₁ false adm₁ det₁) n₂ ip r₂ d₂ false adm₂ det₂)
          n₂ ip = true ∧
        (block_ip (block_ip emptyDB n₁ ip r₁ d₁ false adm₁ det₁) n₂ ip r₂ d₂ false adm₂ det₂).blocks =
          [⟨ip, r₂, det₂, n₁, some (n₂ + (d₂ : Int) * 3600 * usPerSec), false, adm₂, 1, n₂⟩]) := by
  refine ⟨?_, ?_, ?_⟩
  · intro db now ip reason d perm adm det hnone
    unfold block_ip
    have hfil : db.blocks.filter (fun b => b.ip_address == ip) = [] := by
      rw [List.filter_eq_nil_iff]
      intro b hb
      simpa using hnone b hb
    simp [hfil]
  · intro db now ip reason d perm adm det b hb hip
    have hmemf : b ∈ db.blocks.filter (fun b => b.ip_address == ip) :=
      List.mem_filter.mpr ⟨hb, by simp [hip]⟩
    have hne : ¬((db.blocks.filter (fun b => b.ip_address == ip)).isEmpty = true) := by
      simp only [List.isEmpty_iff]
      exact List.ne_nil_of_mem hmemf
    simp only [block_ip]
    rw [if_neg hne]
  · intro ip r₁ r₂ det₁ det₂ d₁ d₂ adm₁ adm₂ n₁ n₂ h₁ h₂
    refine ⟨?_, ?_, ?_⟩
    · simp only [block_ip, emptyDB, is_ip_blocked, IPBlockRow.is_blocked]
      simp [usPerSec]
      omega
    · simp only [block_ip, emptyDB, is_ip_blocked, IPBlockRow.is_blocked]
      simp [usPerSec]
      omega
    · simp only [block_ip, emptyDB]
      simp

/-- Witness for C4: the amended upsert behaviour evaluated on the double-block
of 1.2.3.4. -/
theorem block_ip_upsert_witness :
    is_ip_blocked (block_ip emptyDB 0 "1.2.3.4" "manual" 24 false none "first") 0 "1.2.3.4"
      = true ∧
    is_ip_blocked
      (block_ip (block_ip emptyDB 0 "1.2.3.4" "manual" 24 false none "first")
        1000000 "1.2.3.4" "manual" 24 false none "second") 1000000 "1.2.3.4" = true ∧
    (block_ip (block_ip emptyDB 0 "1.2.3.4" "manual" 24 false none "first")
        1000000 "1.2.3.4" "manual" 24 false none "second").blocks =
      [⟨"1.2.3.4", "manual", "second", 0, some (1000000 + (24 : Int) * 3600 * usPerSec),
        false, none, 1, 1000000⟩] :=
  block_ip_upsert.2.2 "1.2.3.4" "manual" "manual" "first" "second" 24 24 none none 0 1000000
    (by decide) (by decide)

/-! ## C2: no increment on a rejected check -/

/-- C2: `check_rate_limit` never increments the stored count on a rejected
check — when the (unique) live tracker row for `(client, endpoint)` already
holds `request_count ≥ max_requests`, the call returns
`(False, request_count, window_start + window_seconds − now)` and that row
survives in the table unchanged. -/
theorem check_rate_limit_no_increment_on_reject
    (db : TrackerDB) (now : Int) (ip ep : String) (maxr w : Nat) (r : TrackerRow)
    (hmem : r ∈ db.rows)
    (hmatch : trackerMatches ip ep (now - (w : Int) * usPerSec) r = true)
    (huniq : ∀ r' ∈ db.rows,
      trackerMatches ip ep (now - (w : Int) * usPerSec) r' = true → r' = r)
    (hfull : maxr ≤ r.request_count) :
    (check_rate_limit db now ip ep maxr w).1 =
      (false, r.request_count, r.window_start + (w : Int) * usPerSec - now) ∧
    r ∈ (check_rate_limit db now ip ep maxr w).2.rows := by
  set cutoff : Int := now - (w : Int) * usPerSec with hcutoff
  have hprop := hmatch
  simp only [trackerMatches, Bool.and_eq_true, decide_eq_true_eq] at hprop
  have hrp : r ∈ purgedRows db cutoff := by
    refine List.mem_filter.mpr ⟨hmem, ?_⟩
    simp only [Bool.not_eq_true', decide_eq_false_iff_not, not_lt]
    exact hprop.2
  have hrm : r ∈ (purgedRows db cutoff).filter (trackerMatches ip ep cutoff) :=
    List.mem_filter.mpr ⟨hrp, hmatch⟩
  have hall : ∀ x ∈ (purgedRows db cutoff).filter (trackerMatches ip ep cutoff), x = r := by
    intro x hx
    exact huniq x (List.mem_of_mem_filter (List.mem_of_mem_filter hx))
      (List.mem_filter.mp hx).2
  cases hfil : (purgedRows db cutoff).filter (trackerMatches ip ep cutoff) with
  | nil => rw [hfil] at hrm; exact absurd hrm (List.not_mem_nil r)
  | cons m ms =>
    have hmr : m = r := hall m (by rw [hfil]; exact List.mem_cons_self m ms)
    have hmsr : ∀ x ∈ ms, x = r := fun x hx => hall x (by
      rw [hfil]; exact List.mem_cons_of_mem m hx)
    have htr : pickTracker m ms = r := pickTracker_eq_of_all_eq r ms m hmr hmsr
    have hres : check_rate_limit db now ip ep maxr w =
        ((false, r.request_count, r.window_start + (w : Int) * usPerSec - now),
         ⟨(purgedRows db cutoff).filter
            (fun x => !(trackerMatches ip ep cutoff x) || x.id == r.id), db.nextId⟩) := by
      simp only [check_rate_limit]
      rw [← hcutoff, hfil]
      simp only [htr, finishCheck, hfull, if_true]
    rw [hres]
    refine ⟨rfl, List.mem_filter.mpr ⟨hrp, ?_⟩⟩
    simp

/-! ## C3: the stored count never exceeds the limit -/

theorem runChecks_cons (db : TrackerDB) (c : CheckCall) (cs : List CheckCall) :
    runChecks db (c :: cs) =
      ((runChecks (check_rate_limit db c.now c.ip c.endpoint
          c.max_requests c.window_seconds).2 cs).1,
       (check_rate_limit db c.now c.ip c.endpoint c.max_requests c.window_seconds).1 ::
         (runChecks (check_rate_limit db c.now c.ip c.endpoint
            c.max_requests c.window_seconds).2 cs).2) := rfl

theorem keyBound_finishCheck (ip ep : String) (maxr : Nat) (db' : TrackerDB)
    (tracker : TrackerRow) (now : Int) (m' w' : Nat)
    (hb' : keyBound ip ep maxr db')
    (htr : tracker.ip_address = ip → tracker.endpoint = ep →
           tracker.request_count < m' → tracker.request_count + 1 ≤ maxr) :
    keyBound ip ep maxr (finishCheck db' tracker now m' w').2 := by
  unfold finishCheck
  by_cases hc : m' ≤ tracker.request_count
  · simpa [hc] using hb'
  · simp only [hc, if_false]
    intro x hx hip hep
    rcases List.mem_map.mp hx with ⟨r, hr, rfl⟩
    by_cases hid : (r.id == tracker.id) = true
    · simp only [hid, if_true] at hip hep ⊢
      have hlt : tracker.request_count < m' := Nat.lt_of_not_le hc
      exact htr hip hep hlt
    · simp only [hid, if_false] at hip hep ⊢
      exact hb' r hr hip hep

theorem keyBound_purged (ip ep : String) (maxr : Nat) (db : TrackerDB) (cutoff : Int)
    (hb : keyBound ip ep maxr db) (n : Nat) :
    keyBound ip ep maxr ⟨purgedRows db cutoff, n⟩ := by
  intro x hx hip hep
  exact hb x (List.mem_of_mem_filter hx) hip hep

theorem keyBound_check (ip ep : String) (maxr : Nat) (db : TrackerDB) (now : Int)
    (ip' ep' : String) (m' w' : Nat)
    (hb : keyBound ip ep maxr db)
    (hcfg : ip' = ip → ep' = ep → m' = maxr) :
    keyBound ip ep maxr (check_rate_limit db now ip' ep' m' w').2 := by
  simp only [check_rate_limit]
  set cutoff : Int := now - (w' : Int) * usPerSec with hcut
  cases hfil : (purgedRows db cutoff).filter (trackerMatches ip' ep' cutoff) with
  | nil =>
    apply keyBound_finishCheck
    · intro x hx hip hep
      rcases List.mem_append.mp hx with hx1 | hx1
      · exact hb x (List.mem_of_mem_filter hx1) hip hep
      · have : x = ⟨db.nextId, ip', ep', 0, now, now⟩ := by simpa using hx1
        subst this
        exact Nat.zero_le maxr
    · intro h1 h2 _
      have hm : m' = maxr := hcfg h1 h2
      omega
  | cons m ms =>
    have htm : pickTracker m ms ∈
        (purgedRows db cutoff).filter (trackerMatches ip' ep' cutoff) := by
      rw [hfil]; exact pickTracker_mem ms m
    have hmemdb : pickTracker m ms ∈ db.rows :=
      List.mem_of_mem_filter (List.mem_of_mem_filter htm)
    have hpred := (List.mem_filter.mp htm).2
    simp only [trackerMatches, Bool.and_eq_true, beq_iff_eq, decide_eq_true_eq] at hpred
    apply keyBound_finishCheck
    · intro x hx hip hep
      exact hb x (List.mem_of_mem_filter (List.mem_of_mem_filter hx)) hip hep
    · intro h1 h2 hlt
      have hip' : ip' = ip := by rw [← hpred.1.1]; exact h1
      have hep' : ep' = ep := by rw [← hpred.1.2]; exact h2
      have hm : m' = maxr := hcfg hip' hep'
      omega

theorem check_reject_count (ip ep : String) (maxr : Nat) (db : TrackerDB)
    (now : Int) (w : Nat)
    (hb : keyBound ip ep maxr db)
    (hrej : (check_rate_limit db now ip ep maxr w).1.1 = false) :
    (check_rate_limit db now ip ep maxr w).1.2.1 = maxr := by
  simp only [check_rate_limit] at hrej ⊢
  set cutoff : Int := now - (w : Int) * usPerSec with hcut
  cases hfil : (purgedRows db cutoff).filter (trackerMatches ip ep cutoff) with
  | nil =>
    rw [hfil] at hrej
    simp only [finishCheck] at hrej ⊢
    by_cases hc : maxr ≤ 0
    · rw [if_pos hc]
      simp only
      omega
    · rw [if_neg hc] at hrej
      simp at hrej
  | cons m ms =>
    rw [hfil] at hrej
    have htm : pickTracker m ms ∈
        (purgedRows db cutoff).filter (trackerMatches ip ep cutoff) := by
      rw [hfil]; exact pickTracker_mem ms m
    have hmemdb : pickTracker m ms ∈ db.rows :=
      List.mem_of_mem_filter (List.mem_of_mem_filter htm)
    have hpred := (List.mem_filter.mp htm).2
    simp only [trackerMatches, Bool.and_eq_true, beq_iff_eq, decide_eq_true_eq] at hpred
    have hbound := hb _ hmemdb hpred.1.1 hpred.1.2
    simp only [finishCheck] at hrej ⊢
    by_cases hc : maxr ≤ (pickTracker m ms).request_count
    · simp only [hc, if_true]
      omega
    · simp [hc] at hrej

/-- C3: under sequential execution every tracker row for a key keeps
`request_count ≤ max_requests` (for the limit configured for that key), so a
rejected call reports exactly `max_requests` — never more — and both
middleware auto-block guards (`count > max_requests + 5` of the sensitive
branch and `count > max · 3` of the DDoS branch) are unreachable in any
sequential trace. -/
theorem request_count_le_limit_invariant (ip ep : String) (maxr : Nat) :
    ∀ (calls : List CheckCall) (db : TrackerDB),
      (∀ c ∈ calls, c.ip = ip → c.endpoint = ep → c.max_requests = maxr) →
      keyBound ip ep maxr db →
      keyBound ip ep maxr (runChecks db calls).1 ∧
      ∀ p ∈ calls.zip (runChecks db calls).2,
        p.1.ip = ip → p.1.endpoint = ep → p.2.1 = false →
        p.2.2.1 = maxr ∧ ¬(p.1.max_requests + 5 < p.2.2.1) ∧ ¬(maxr * 3 < p.2.2.1) := by
  intro calls
  induction calls with
  | nil =>
    intro db _ hb
    exact ⟨hb, by simp [runChecks]⟩
  | cons c cs ih =>
    intro db hcfg hb
    have hb' : keyBound ip ep maxr
        (check_rate_limit db c.now c.ip c.endpoint c.max_requests c.window_seconds).2 :=
      keyBound_check ip ep maxr db c.now c.ip c.endpoint c.max_requests c.window_seconds hb
        (hcfg c (List.mem_cons_self c cs))
    have IH := ih (check_rate_limit db c.now c.ip c.endpoint
        c.max_requests c.window_seconds).2
      (fun x hx => hcfg x (List.mem_cons_of_mem c hx)) hb'
    rw [runChecks_cons]
    refine ⟨IH.1, ?_⟩
    intro p hp
    rw [List.zip_cons_cons] at hp
    rcases List.mem_cons.mp hp with hp1 | hp1
    · subst hp1
      intro hip hep hrej
      have hm : c.max_requests = maxr := hcfg c (List.mem_cons_self c cs) hip hep
      have hcount : (check_rate_limit db c.now c.ip c.endpoint
          c.max_requests c.window_seconds).1.2.1 = maxr := by
        rw [hip, hep, hm] at hrej ⊢
        exact check_reject_count ip ep maxr db c.now c.window_seconds hb hrej
      refine ⟨hcount, ?_, ?_⟩ <;> (dsimp only; omega)
    · exact IH.2 p hp1

/-- Witness for C3: a trace of four calls at limit 2 on one key, ending
rejected with count exactly 2. -/
theorem request_count_le_limit_invariant_witness :
    keyBound "1.2.3.4" "api_general" 2
      (runChecks ⟨[], 0⟩ (List.replicate 4 ⟨0, "1.2.3.4", "api_general", 2, 60⟩)).1 ∧
    ∀ p ∈ (List.replicate 4 (⟨0, "1.2.3.4", "api_general", 2, 60⟩ : CheckCall)).zip
        (runChecks ⟨[], 0⟩ (List.replicate 4 ⟨0, "1.2.3.4", "api_general", 2, 60⟩)).2,
      p.1.ip = "1.2.3.4" → p.1.endpoint = "api_general" → p.2.1 = false →
      p.2.2.1 = 2 ∧ ¬(p.1.max_requests + 5 < p.2.2.1) ∧ ¬(2 * 3 < p.2.2.1) :=
  request_count_le_limit_invariant "1.2.3.4" "api_general" 2
    (List.replicate 4 ⟨0, "1.2.3.4", "api_general", 2, 60⟩) ⟨[], 0⟩
    (by decide) (by intro r hr; simp at hr)

/-! ## C6: exactly `max_requests` calls succeed in a window -/

theorem runChecks_append (l1 : List CheckCall) :
    ∀ (db : TrackerDB) (l2 : List CheckCall),
      runChecks db (l1 ++ l2) =
        ((runChecks (runChecks db l1).1 l2).1,
         (runChecks db l1).2 ++ (runChecks (runChecks db l1).1 l2).2) := by
  induction l1 with
  | nil => intro db l2; simp [runChecks]
  | cons c cs ih =>
    intro db l2
    rw [List.cons_append, runChecks_cons, runChecks_cons, ih]
    simp [runChecks_cons]

theorem check_fresh (n : Nat) (now : Int) (ip ep : String) (maxr w : Nat)
    (h : 0 < maxr) :
    check_rate_limit ⟨[], n⟩ now ip ep maxr w =
      ((true, 1, 0), ⟨[⟨n, ip, ep, 1, now, now⟩], n + 1⟩) := by
  have hc : ¬(maxr ≤ 0) := by omega
  simp [check_rate_limit, purgedRows, finishCheck, hc]

theorem check_single_row_allowed (i n : Nat) (ip ep : String) (k : Nat)
    (t0 l now : Int) (maxr w : Nat)
    (hlive : now ≤ t0 + (w : Int) * usPerSec) (hk : k < maxr) :
    check_rate_limit ⟨[⟨i, ip, ep, k, t0, l⟩], n⟩ now ip ep maxr w =
      ((true, k + 1, 0), ⟨[⟨i, ip, ep, k + 1, t0, now⟩], n⟩) := by
  have h1 : ¬(t0 < now - (w : Int) * usPerSec) := by
    rw [show usPerSec = 1000000 from rfl] at hlive ⊢
    omega
  have h2 : now - (w : Int) * usPerSec ≤ t0 := by
    rw [show usPerSec = 1000000 from rfl] at hlive ⊢
    omega
  have hc : ¬(maxr ≤ k) := by omega
  simp [check_rate_limit, purgedRows, trackerMatches, h1, h2, pickTracker,
    finishCheck, hc]

theorem check_single_row_rejected (i n : Nat) (ip ep : String) (k : Nat)
    (t0 l now : Int) (maxr w : Nat)
    (hlive : now ≤ t0 + (w : Int) * usPerSec) (hfull : maxr ≤ k) :
    check_rate_limit ⟨[⟨i, ip, ep, k, t0, l⟩], n⟩ now ip ep maxr w =
      ((false, k, t0 + (w : Int) * usPerSec - now), ⟨[⟨i, ip, ep, k, t0, l⟩], n⟩) := by
  have h1 : ¬(t0 < now - (w : Int) * usPerSec) := by
    rw [show usPerSec = 1000000 from rfl] at hlive ⊢
    omega
  have h2 : now - (w : Int) * usPerSec ≤ t0 := by
    rw [show usPerSec = 1000000 from rfl] at hlive ⊢
    omega
  simp [check_rate_limit, purgedRows, trackerMatches, h1, h2, pickTracker,
    finishCheck, hfull]

theorem runChecks_single_row (ip ep : String) (maxr w i n : Nat) (t0 : Int) :
    ∀ (ts : List Int) (k : Nat) (l : Int),
      k + ts.length ≤ maxr →
      (∀ t ∈ ts, t ≤ t0 + (w : Int) * usPerSec) →
      ∃ l', runChecks ⟨[⟨i, ip, ep, k, t0, l⟩], n⟩
          (ts.map (fun t => ⟨t, ip, ep, maxr, w⟩)) =
        (⟨[⟨i, ip, ep, k + ts.length, t0, l'⟩], n⟩,
         (List.range ts.length).map (fun j => (true, k + j + 1, (0 : Int)))) := by
  intro ts
  induction ts with
  | nil =>
    intro k l _ _
    exact ⟨l, by simp [runChecks]⟩
  | cons t ts ih =>
    intro k l hle hts
    have hk : k < maxr := by
      have := hle
      simp at this
      omega
    have hstep := check_single_row_allowed i n ip ep k t0 l t maxr w
      (hts t (by simp)) hk
    obtain ⟨l', hrest⟩ := ih (k + 1) t (by simp at hle ⊢; omega)
      (fun x hx => hts x (by simp [hx]))
    refine ⟨l', ?_⟩
    rw [List.map_cons, runChecks_cons]
    simp only [hstep, hrest]
    rw [List.length_cons,
      show k + (ts.length + 1) = k + 1 + ts.length by omega,
      List.range_succ_eq_map, List.map_cons, List.map_map]
    refine congrArg₂ Prod.mk rfl ?_
    refine congrArg₂ List.cons rfl ?_
    refine List.map_congr_left ?_
    intro j hj
    simp only [Function.comp, Nat.succ_eq_add_one]
    refine congrArg (fun x => (true, x, (0 : Int))) ?_
    omega

/-- C6: for every positive limit and window, a fresh client making exactly
`max_requests` calls inside one window is allowed every time (the call made at
stored count `max_requests − 1` being the last allowed one, answering the
post-increment count `max_requests`), and one further call strictly inside the
window is rejected with a strictly positive time until reset. -/
theorem sliding_window_exact_limit (ip ep : String) (maxr w : Nat) (t0 : Int)
    (ts : List Int) (t' : Int)
    (hmax : 0 < maxr) (hw : 0 < w)
    (hlen : ts.length = maxr - 1)
    (hts : ∀ t ∈ ts, t ≤ t0 + (w : Int) * usPerSec)
    (ht' : t' < t0 + (w : Int) * usPerSec) :
    (runChecks ⟨[], 0⟩ ((⟨t0, ip, ep, maxr, w⟩ : CheckCall) ::
        (ts.map (fun t => (⟨t, ip, ep, maxr, w⟩ : CheckCall)) ++
          [⟨t', ip, ep, maxr, w⟩]))).2 =
      ((List.range maxr).map (fun j => (true, j + 1, (0 : Int)))) ++
        [(false, maxr, t0 + (w : Int) * usPerSec - t')] ∧
    0 < t0 + (w : Int) * usPerSec - t' := by
  refine ⟨?_, by omega⟩
  rw [runChecks_cons]
  simp only [check_fresh 0 t0 ip ep maxr w hmax]
  rw [runChecks_append]
  obtain ⟨l', hmid⟩ := runChecks_single_row ip ep maxr w 0 1 t0 ts 1 t0
    (by omega) hts
  simp only [hmid]
  have hone : 1 + ts.length = maxr := by omega
  have hlast := check_single_row_rejected 0 1 ip ep (1 + ts.length) t0 l' t' maxr w
    (le_of_lt ht') (by omega)
  rw [show runChecks ⟨[⟨0, ip, ep, 1 + ts.length, t0, l'⟩], 1⟩
        [(⟨t', ip, ep, maxr, w⟩ : CheckCall)] =
      ((check_rate_limit ⟨[⟨0, ip, ep, 1 + ts.length, t0, l'⟩], 1⟩ t' ip ep maxr w).2,
       [(check_rate_limit ⟨[⟨0, ip, ep, 1 + ts.length, t0, l'⟩], 1⟩ t' ip ep maxr w).1])
    from rfl]
  simp only [hlast]
  rw [show maxr = ts.length + 1 by omega]
  rw [List.range_succ_eq_map, List.map_cons, List.map_map]
  simp only [List.cons_append, List.singleton_append]
  refine congrArg₂ List.cons rfl ?_
  refine congrArg₂ List.append ?_
    (by rw [show (1 + ts.length : Nat) = ts.length + 1 by omega])
  refine List.map_congr_left ?_
  intro j hj
  simp only [Function.comp, Nat.succ_eq_add_one]
  refine congrArg (fun x => (true, x, (0 : Int))) ?_
  omega

/-- Witness for C6: a limit of 2, the first call at `t0 = 0`, the second call
at 10 s and the third call at 30 s, all inside a 60 s window. -/
theorem sliding_window_exact_limit_witness :
    (runChecks ⟨[], 0⟩ ((⟨0, "1.2.3.4", "login", 2, 60⟩ : CheckCall) ::
        (([10000000] : List Int).map
          (fun t => (⟨t, "1.2.3.4", "login", 2, 60⟩ : CheckCall)) ++
          [⟨30000000, "1.2.3.4", "login", 2, 60⟩]))).2 =
      ((List.range 2).map (fun j => (true, j + 1, (0 : Int)))) ++
        [(false, 2, 0 + (60 : Int) * usPerSec - 30000000)] ∧
    0 < 0 + (60 : Int) * usPerSec - 30000000 :=
  sliding_window_exact_limit "1.2.3.4" "login" 2 60 0 [10000000] 30000000
    (by decide) (by decide) (by decide) (by decide) (by decide)

/-- Witness for C2: a full row rejected and left unchanged. -/
theorem check_rate_limit_no_increment_on_reject_witness :
    (check_rate_limit ⟨[⟨0, "1.2.3.4", "api_general", 3, 0, 0⟩], 1⟩ 10000000
        "1.2.3.4" "api_general" 3 60).1 = (false, 3, 0 + (60 : Int) * usPerSec - 10000000) ∧
    (⟨0, "1.2.3.4", "api_general", 3, 0, 0⟩ : TrackerRow) ∈
      (check_rate_limit ⟨[⟨0, "1.2.3.4", "api_general", 3, 0, 0⟩], 1⟩ 10000000
        "1.2.3.4" "api_general" 3 60).2.rows :=
  check_rate_limit_no_increment_on_reject
    ⟨[⟨0, "1.2.3.4", "api_general", 3, 0, 0⟩], 1⟩ 10000000 "1.2.3.4" "api_general" 3 60
    ⟨0, "1.2.3.4", "api_general", 3, 0, 0⟩ (by decide) (by decide)
    (by decide) (by decide)

/-! ## C5: the value of `retry_after` on rejection -/

theorem pyIntSec_bounds (us : Int) (w : Nat) (h0 : 0 ≤ us)
    (hw : us ≤ (w : Int) * usPerSec) :
    0 ≤ pyIntSec us ∧ pyIntSec us ≤ (w : Int) := by
  unfold pyIntSec
  rw [Int.tdiv_eq_ediv h0 (by rw [show usPerSec = 1000000 from rfl]; omega)]
  rw [show usPerSec = 1000000 from rfl] at hw ⊢
  omega

theorem check_reject_reset_bounds (db : TrackerDB) (now : Int) (ip ep : String)
    (maxr w : Nat)
    (hws : ∀ r ∈ db.rows, r.window_start ≤ now)
    {c : Nat} {reset : Int} {db' : TrackerDB}
    (h : check_rate_limit db now ip ep maxr w = ((false, c, reset), db')) :
    0 ≤ reset ∧ reset ≤ (w : Int) * usPerSec := by
  simp only [check_rate_limit] at h
  set cutoff : Int := now - (w : Int) * usPerSec with hcut
  cases hfil : (purgedRows db cutoff).filter (trackerMatches ip ep cutoff) with
  | nil =>
    rw [hfil] at h
    simp only [finishCheck] at h
    by_cases hc : maxr ≤ 0
    · rw [if_pos hc] at h
      simp only [Prod.mk.injEq] at h
      have hr : now + (w : Int) * usPerSec - now = reset := h.1.2.2
      rw [show usPerSec = 1000000 from rfl] at hr ⊢
      omega
    · rw [if_neg hc] at h
      simp at h
  | cons m ms =>
    rw [hfil] at h
    have htm : pickTracker m ms ∈
        (purgedRows db cutoff).filter (trackerMatches ip ep cutoff) := by
      rw [hfil]; exact pickTracker_mem ms m
    have hnow : (pickTracker m ms).window_start ≤ now :=
      hws _ (List.mem_of_mem_filter (List.mem_of_mem_filter htm))
    have hpred := (List.mem_filter.mp htm).2
    simp only [trackerMatches, Bool.and_eq_true, decide_eq_true_eq] at hpred
    have hwin : cutoff ≤ (pickTracker m ms).window_start := hpred.2
    simp only [finishCheck] at h
    by_cases hc : maxr ≤ (pickTracker m ms).request_count
    · rw [if_pos hc] at h
      simp only [Prod.mk.injEq] at h
      have hr : (pickTracker m ms).window_start + (w : Int) * usPerSec - now = reset :=
        h.1.2.2
      rw [hcut] at hwin
      rw [show usPerSec = 1000000 from rfl] at hr hwin ⊢
      omega
    · rw [if_neg hc] at h
      simp at h

theorem finishCheck_ws_le (db' : TrackerDB) (tracker : TrackerRow) (now : Int)
    (maxr w : Nat)
    (hdb : ∀ r ∈ db'.rows, r.window_start ≤ now)
    (htrk : tracker.window_start ≤ now) :
    ∀ r ∈ (finishCheck db' tracker now maxr w).2.rows, r.window_start ≤ now := by
  unfold finishCheck
  by_cases hc : maxr ≤ tracker.request_count
  · simpa [hc] using hdb
  · simp only [hc, if_false]
    intro r hr
    rcases List.mem_map.mp hr with ⟨x, hx, rfl⟩
    by_cases hid : (x.id == tracker.id) = true
    · simpa [hid] using htrk
    · simpa [hid] using hdb x hx

theorem check_preserves_ws_le (db : TrackerDB) (now : Int) (ip ep : String)
    (maxr w : Nat)
    (hws : ∀ r ∈ db.rows, r.window_start ≤ now) :
    ∀ r ∈ (check_rate_limit db now ip ep maxr w).2.rows, r.window_start ≤ now := by
  simp only [check_rate_limit]
  set cutoff : Int := now - (w : Int) * usPerSec with hcut
  cases hfil : (purgedRows db cutoff).filter (trackerMatches ip ep cutoff) with
  | nil =>
    apply finishCheck_ws_le
    · intro r hr
      rcases List.mem_append.mp hr with hr1 | hr1
      · exact hws r (List.mem_of_mem_filter hr1)
      · have : r = ⟨db.nextId, ip, ep, 0, now, now⟩ := by simpa using hr1
        subst this
        exact le_refl now
    · exact le_refl now
  | cons m ms =>
    have htm : pickTracker m ms ∈
        (purgedRows db cutoff).filter (trackerMatches ip ep cutoff) := by
      rw [hfil]; exact pickTracker_mem ms m
    apply finishCheck_ws_le
    · intro r hr
      exact hws r (List.mem_of_mem_filter (List.mem_of_mem_filter hr))
    · exact hws _ (List.mem_of_mem_filter (List.mem_of_mem_filter htm))

theorem sensitiveCheck_some (s : Settings) (req : Request) (B : Nat) :
    ∀ (rules : List EndpointRule) (db : SecurityDB) (now : Int),
      (∀ ru ∈ rules, ru.window ≤ B) →
      (∀ r ∈ db.trackers.rows, r.window_start ≤ now) →
      ∀ resp db', sensitiveCheck s db now req rules = (some resp, db') →
        ∃ ra, resp = GateResponse.rateLimited ra ∧ 0 ≤ ra ∧ ra ≤ (B : Int) := by
  intro rules
  induction rules with
  | nil =>
    intro db now _ _ resp db' h
    simp [sensitiveCheck] at h
  | cons rule rest ih =>
    intro db now hrules hws resp db' h
    simp only [sensitiveCheck] at h
    by_cases hsw : strStartsWith req.path rule.pathStart
    · rw [if_pos hsw] at h
      rcases hchk : check_rate_limit db.trackers now req.ip rule.pathStart
          rule.max_requests rule.window with ⟨⟨allowed, count, reset⟩, tr⟩
      rw [hchk] at h
      by_cases hall : allowed = true
      · subst hall
        simp only [if_true] at h
        have hws' : ∀ r ∈ tr.rows, r.window_start ≤ now := by
          have := check_preserves_ws_le db.trackers now req.ip rule.pathStart
            rule.max_requests rule.window hws
          rw [hchk] at this
          exact this
        exact ih { db with trackers := tr } now
          (fun ru hru => hrules ru (List.mem_cons_of_mem rule hru)) hws' resp db' h
      · have hfalse : allowed = false := by
          cases allowed
          · rfl
          · exact absurd rfl hall
        subst hfalse
        simp only [Bool.false_eq_true, if_false, Prod.mk.injEq, Option.some.injEq] at h
        obtain ⟨hresp, _⟩ := h
        refine ⟨pyIntSec reset, hresp.symm, ?_⟩
        have hbounds := check_reject_reset_bounds db.trackers now req.ip rule.pathStart
          rule.max_requests rule.window hws hchk
        have hpy := pyIntSec_bounds reset rule.window hbounds.1 hbounds.2
        have hB : rule.window ≤ B := hrules rule (List.mem_cons_self rule rest)
        constructor
        · exact hpy.1
        · have := hpy.2
          omega
    · rw [if_neg hsw] at h
      exact ih db now (fun ru hru => hrules ru (List.mem_cons_of_mem rule hru)) hws
        resp db' h

theorem sensitiveCheck_none_ws (s : Settings) (req : Request) :
    ∀ (rules : List EndpointRule) (db : SecurityDB) (now : Int),
      (∀ r ∈ db.trackers.rows, r.window_start ≤ now) →
      ∀ db', sensitiveCheck s db now req rules = (none, db') →
        ∀ r ∈ db'.trackers.rows, r.window_start ≤ now := by
  intro rules
  induction rules with
  | nil =>
    intro db now hws db' h
    simp only [sensitiveCheck, Prod.mk.injEq] at h
    rw [← h.2]
    exact hws
  | cons rule rest ih =>
    intro db now hws db' h
    simp only [sensitiveCheck] at h
    by_cases hsw : strStartsWith req.path rule.pathStart
    · rw [if_pos hsw] at h
      rcases hchk : check_rate_limit db.trackers now req.ip rule.pathStart
          rule.max_requests rule.window with ⟨⟨allowed, count, reset⟩, tr⟩
      rw [hchk] at h
      by_cases hall : allowed = true
      · subst hall
        simp only [if_true] at h
        have hws' : ∀ r ∈ tr.rows, r.window_start ≤ now := by
          have := check_preserves_ws_le db.trackers now req.ip rule.pathStart
            rule.max_requests rule.window hws
          rw [hchk] at this
          exact this
        exact ih { db with trackers := tr } now hws' db' h
      · have hfalse : allowed = false := by
          cases allowed
          · rfl
          · exact absurd rfl hall
        subst hfalse
        simp at h
    · rw [if_neg hsw] at h
      exact ih db now hws db' h

theorem generalCheck_some (s : Settings) (db : SecurityDB) (now : Int) (req : Request)
    (hws : ∀ r ∈ db.trackers.rows, r.window_start ≤ now) :
    ∀ resp db', generalCheck s db now req = (some resp, db') →
      ∃ ra, resp = GateResponse.rateLimited ra ∧ 0 ≤ ra ∧ ra ≤ (60 : Int) := by
  intro resp db' h
  simp only [generalCheck] at h
  by_cases hsw : strStartsWith req.path "/api/"
  · rw [if_pos hsw] at h
    rcases hchk : check_rate_limit db.trackers now req.ip "api_general"
        s.MAX_API_CALLS_PER_MINUTE 60 with ⟨⟨allowed, count, reset⟩, tr⟩
    rw [hchk] at h
    by_cases hall : allowed = true
    · subst hall
      simp at h
    · have hfalse : allowed = false := by
        cases allowed
        · rfl
        · exact absurd rfl hall
      subst hfalse
      simp only [Bool.false_eq_true, if_false, Prod.mk.injEq, Option.some.injEq] at h
      obtain ⟨hresp, _⟩ := h
      refine ⟨pyIntSec reset, hresp.symm, ?_⟩
      have hbounds := check_reject_reset_bounds db.trackers now req.ip "api_general"
        s.MAX_API_CALLS_PER_MINUTE 60 hws hchk
      have hpy := pyIntSec_bounds reset 60 hbounds.1 hbounds.2
      exact ⟨hpy.1, by have := hpy.2; omega⟩
  · rw [if_neg hsw] at h
    simp at h

/-- C5 counterexample: at the general limit 1/60 s, a rejection 59.5 s into
the window (0.5 s until reset) answers 429 with `retry_after = 0` — the
truncation of 0.5 — while the claim demands the ceiling `⌈0.5⌉ = 1` and a
value of at least 1. -/
theorem retry_after_truncation_cex :
    halfSecondRun.2 = [.forwarded 200, .rateLimited 0] ∧
    (⌈(500000 : ℚ) / 1000000⌉ : ℤ) = 1 ∧ ¬((1 : ℤ) ≤ 0) := by
  refine ⟨by decide, ?_, by decide⟩
  rw [Int.ceil_eq_iff]
  norm_num

/-- C5 amended: on every rate-limit rejection the 429 response carries
`retry_after = int(time_until_reset)`, the truncation (floor) of the
nonnegative seconds until the window resets — a value between 0 and the
largest configured window (so it can be 0 during the final fractional second,
not at least 1 as a ceiling would give). -/
theorem retry_after_bounds (s : Settings) (db : SecurityDB) (now : Int) (req : Request)
    (hws : ∀ r ∈ db.trackers.rows, r.window_start ≤ now) :
    ∀ ra db', securityMiddleware s db now req = (.rateLimited ra, db') →
      0 ≤ ra ∧ ra ≤ ((max s.RATE_LIMIT_WINDOW 60 : Nat) : Int) := by
  intro ra db' h
  simp only [securityMiddleware] at h
  by_cases hblk : is_ip_blocked db now req.ip
  · rw [if_pos hblk] at h
    simp at h
  · rw [if_neg hblk] at h
    rcases hsc : sensitiveCheck s db now req (SENSITIVE_ENDPOINTS s) with ⟨o, db1⟩
    rw [hsc] at h
    cases o with
    | some resp =>
      simp only [Prod.mk.injEq] at h
      obtain ⟨ra', hresp, h0, hB⟩ := sensitiveCheck_some s req
        (max s.RATE_LIMIT_WINDOW 60) (SENSITIVE_ENDPOINTS s) db now
        (by intro ru hru
            simp [SENSITIVE_ENDPOINTS] at hru
            rcases hru with rfl | rfl | rfl
            · exact Nat.le_max_left _ _
            · exact Nat.le_max_left _ _
            · exact Nat.le_max_right _ _)
        hws resp db1 hsc
      rw [h.1] at hresp
      rw [GateResponse.rateLimited.injEq] at hresp
      rw [← hresp] at h0 hB
      exact ⟨h0, hB⟩
    | none =>
      have hws1 : ∀ r ∈ db1.trackers.rows, r.window_start ≤ now :=
        sensitiveCheck_none_ws s req (SENSITIVE_ENDPOINTS s) db now hws db1 hsc
      dsimp only at h
      rcases hgc : generalCheck s db1 now req with ⟨o2, db2⟩
      rw [hgc] at h
      cases o2 with
      | some resp =>
        simp only [Prod.mk.injEq] at h
        obtain ⟨ra', hresp, h0, hB⟩ := generalCheck_some s db1 now req hws1 resp db2 hgc
        rw [h.1] at hresp
        rw [GateResponse.rateLimited.injEq] at hresp
        rw [← hresp] at h0 hB
        refine ⟨h0, ?_⟩
        have : (60 : Int) ≤ ((max s.RATE_LIMIT_WINDOW 60 : Nat) : Int) := by
          have := Nat.le_max_right s.RATE_LIMIT_WINDOW 60
          omega
        omega
      | none =>
        simp only [Prod.mk.injEq] at h
        exact absurd h.1 (by simp)

/-- Witness for C5: at the general limit 0 the very first request is rejected
with `retry_after = 60`, which the theorem bounds by the 60 s window. -/
theorem retry_after_bounds_witness :
    (0 : Int) ≤ 60 ∧ (60 : Int) ≤ ((max zeroLimit.RATE_LIMIT_WINDOW 60 : Nat) : Int) :=
  retry_after_bounds zeroLimit emptyDB 0 (apiReq "9.9.9.9")
    (by intro r hr; simp [emptyDB] at hr) 60
    (securityMiddleware zeroLimit emptyDB 0 (apiReq "9.9.9.9")).2 (by decide)

/-! ## C1: the 61st and the 181st request of the general-API scenario -/

/-- C1 counterexample: at the spec's general limit 60/60 s, the 61st request
of a fresh client inside one window is indeed answered 429, but sending 181
requests in the window triggers no `IPBlock.block_ip` call and no `ddos`
event at all — the block table stays empty — because rejected checks never
increment the stored count, so the count reported on every rejection is 60
and the guard `count > 60 · 3` never fires. -/
theorem ddos_escalation_never_fires_cex :
    ddosRun.2.get? 60 = some (.rateLimited 60) ∧
    ddosRun.1.blocks = [] ∧
    ddosRun.1.events.filter (fun e => e.event_type == "ddos") = [] := by
  decide

/-- C1 amended: requests 1–60 of the 181-request window are forwarded,
requests 61–181 are all answered 429 with `retry_after = 60`; every rejection
logs a `rate_limit` event, the stored count stays pinned at 60, and no block
row and no `ddos` event is ever created. -/
theorem general_scenario_181_requests :
    ddosRun.2.take 60 = List.replicate 60 (.forwarded 200) ∧
    ddosRun.2.drop 60 = List.replicate 121 (.rateLimited 60) ∧
    ddosRun.1.blocks = [] ∧
    ddosRun.1.events.filter (fun e => e.event_type == "ddos") = [] ∧
    (ddosRun.1.events.filter (fun e => e.event_type == "rate_limit")).length = 121 ∧
    ddosRun.1.trackers.rows.map (fun r => r.request_count) = [60] := by
  decide

/-! ## C7: brute-force auto-escalation -/

theorem runGate_cons (s : Settings) (db : SecurityDB) (now : Int) (req : Request)
    (rest : List (Int × Request)) :
    runGate s db ((now, req) :: rest) =
      ((runGate s (securityMiddleware s db now req).2 rest).1,
       (securityMiddleware s db now req).1 ::
         (runGate s (securityMiddleware s db now req).2 rest).2) := rfl

theorem beq_ag_login : (("api_general" : String) == "/api/auth/token/login/") = false := by
  decide

theorem beq_login_ag : (("/api/auth/token/login/" : String) == "api_general") = false := by
  decide

theorem sw_login_users :
    strStartsWith "/api/auth/token/login/" "/api/auth/users/" = false := by decide

theorem sw_login_login :
    strStartsWith "/api/auth/token/login/" "/api/auth/token/login/" = true := by decide

theorem sw_login_logout :
    strStartsWith "/api/auth/token/login/" "/api/auth/token/logout/" = false := by decide

theorem sw_login_api :
    strStartsWith "/api/auth/token/login/" "/api/" = true := by decide

theorem check_login_row (ip : String) (k maxr w : Nat) (hk : k < maxr) :
    check_rate_limit
        ⟨[⟨0, ip, "/api/auth/token/login/", k, 0, 0⟩, ⟨1, ip, "api_general", k, 0, 0⟩], 2⟩
        0 ip "/api/auth/token/login/" maxr w =
      ((true, k + 1, 0),
       ⟨[⟨0, ip, "/api/auth/token/login/", k + 1, 0, 0⟩,
         ⟨1, ip, "api_general", k, 0, 0⟩], 2⟩) := by
  have h1 : ¬((0 : Int) < -((w : Int) * 1000000)) := by omega
  have h2 : -((w : Int) * 1000000) ≤ (0 : Int) := by omega
  have hc : ¬(maxr ≤ k) := by omega
  simp [check_rate_limit, purgedRows, trackerMatches, pickTracker, finishCheck,
    usPerSec, h1, h2, hc, beq_ag_login]

theorem check_general_row (ip : String) (k k' maxr : Nat) (hk : k < maxr) :
    check_rate_limit
        ⟨[⟨0, ip, "/api/auth/token/login/", k', 0, 0⟩, ⟨1, ip, "api_general", k, 0, 0⟩], 2⟩
        0 ip "api_general" maxr 60 =
      ((true, k + 1, 0),
       ⟨[⟨0, ip, "/api/auth/token/login/", k', 0, 0⟩,
         ⟨1, ip, "api_general", k + 1, 0, 0⟩], 2⟩) := by
  have hc : ¬(maxr ≤ k) := by omega
  simp [check_rate_limit, purgedRows, trackerMatches, pickTracker, finishCheck,
    usPerSec, hc, beq_login_ag]

theorem check_general_create (ip : String) (k' maxr : Nat) (h : 0 < maxr) :
    check_rate_limit ⟨[⟨0, ip, "/api/auth/token/login/", k', 0, 0⟩], 1⟩
        0 ip "api_general" maxr 60 =
      ((true, 1, 0),
       ⟨[⟨0, ip, "/api/auth/token/login/", k', 0, 0⟩,
         ⟨1, ip, "api_general", 1, 0, 0⟩], 2⟩) := by
  have hc : ¬(maxr ≤ 0) := by omega
  have hc0 : ¬(maxr = 0) := by omega
  simp [check_rate_limit, purgedRows, trackerMatches, pickTracker, finishCheck,
    usPerSec, hc, hc0, beq_login_ag]

theorem gate_step_mid (s : Settings) (ip : String) (k : Nat)
    (hml : k < s.MAX_LOGIN_ATTEMPTS) (hg : k < s.MAX_API_CALLS_PER_MINUTE)
    (hth : ¬(s.AUTO_BLOCK_THRESHOLD ≤ k + 1)) :
    securityMiddleware s (preState ip k) 0 (loginReq ip) =
      (.forwarded 401, preState ip (k + 1)) := by
  simp [securityMiddleware, sensitiveCheck, generalCheck, SENSITIVE_ENDPOINTS,
    handle_failed_login, is_ip_blocked, preState, loginReq, loginPath, loginFailEv,
    check_login_row ip k s.MAX_LOGIN_ATTEMPTS s.RATE_LIMIT_WINDOW hml,
    check_general_row ip k (k + 1) s.MAX_API_CALLS_PER_MINUTE hg,
    sw_login_users, sw_login_login, sw_login_logout, sw_login_api,
    usPerSec, ← List.replicate_succ', hth]

theorem gate_step_block (s : Settings) (ip : String) (k : Nat)
    (hml : k < s.MAX_LOGIN_ATTEMPTS) (hg : k < s.MAX_API_CALLS_PER_MINUTE)
    (hth : s.AUTO_BLOCK_THRESHOLD ≤ k + 1) :
    securityMiddleware s (preState ip k) 0 (loginReq ip) =
      (.forwarded 401, bruteFinalState s ip (k + 1)) := by
  simp [securityMiddleware, sensitiveCheck, generalCheck, SENSITIVE_ENDPOINTS,
    handle_failed_login, auto_block_ip, block_ip, is_ip_blocked, preState, loginReq,
    loginPath, loginFailEv, bruteFinalState, bruteDetails,
    check_login_row ip k s.MAX_LOGIN_ATTEMPTS s.RATE_LIMIT_WINDOW hml,
    check_general_row ip k (k + 1) s.MAX_API_CALLS_PER_MINUTE hg,
    sw_login_users, sw_login_login, sw_login_logout, sw_login_api,
    usPerSec, ← List.replicate_succ', hth]

theorem gate_step_first (s : Settings) (ip : String)
    (hml : 0 < s.MAX_LOGIN_ATTEMPTS) (hg : 0 < s.MAX_API_CALLS_PER_MINUTE)
    (hth : ¬(s.AUTO_BLOCK_THRESHOLD ≤ 1)) :
    securityMiddleware s emptyDB 0 (loginReq ip) = (.forwarded 401, preState ip 1) := by
  simp [securityMiddleware, sensitiveCheck, generalCheck, SENSITIVE_ENDPOINTS,
    handle_failed_login, is_ip_blocked, emptyDB, preState, loginReq, loginPath,
    loginFailEv, check_fresh 0 0 ip "/api/auth/token/login/" s.MAX_LOGIN_ATTEMPTS
      s.RATE_LIMIT_WINDOW hml,
    check_general_create ip 1 s.MAX_API_CALLS_PER_MINUTE hg,
    sw_login_users, sw_login_login, sw_login_logout, sw_login_api,
    usPerSec, hth]

theorem gate_step_first_block (s : Settings) (ip : String)
    (hml : 0 < s.MAX_LOGIN_ATTEMPTS) (hg : 0 < s.MAX_API_CALLS_PER_MINUTE)
    (hth : s.AUTO_BLOCK_THRESHOLD ≤ 1) :
    securityMiddleware s emptyDB 0 (loginReq ip) =
      (.forwarded 401, bruteFinalState s ip 1) := by
  simp [securityMiddleware, sensitiveCheck, generalCheck, SENSITIVE_ENDPOINTS,
    handle_failed_login, auto_block_ip, block_ip, is_ip_blocked, emptyDB, preState,
    loginReq, loginPath, loginFailEv, bruteFinalState, bruteDetails,
    check_fresh 0 0 ip "/api/auth/token/login/" s.MAX_LOGIN_ATTEMPTS
      s.RATE_LIMIT_WINDOW hml,
    check_general_create ip 1 s.MAX_API_CALLS_PER_MINUTE hg,
    sw_login_users, sw_login_login, sw_login_logout, sw_login_api,
    usPerSec, hth]

theorem runGate_login_from_pre (s : Settings) (ip : String) :
    ∀ (j k : Nat), 1 ≤ j → k + j = s.AUTO_BLOCK_THRESHOLD →
      s.AUTO_BLOCK_THRESHOLD ≤ s.MAX_LOGIN_ATTEMPTS →
      s.AUTO_BLOCK_THRESHOLD ≤ s.MAX_API_CALLS_PER_MINUTE →
      runGate s (preState ip k) (List.replicate j ((0 : Int), loginReq ip)) =
        (bruteFinalState s ip s.AUTO_BLOCK_THRESHOLD,
         List.replicate j (.forwarded 401)) := by
  intro j
  induction j with
  | zero => intro k h; exact absurd h (by decide)
  | succ j ihj =>
    intro k _ hsum hml hg
    rw [List.replicate_succ, runGate_cons]
    rcases Nat.eq_zero_or_pos j with hj | hj
    · subst hj
      have hth : s.AUTO_BLOCK_THRESHOLD ≤ k + 1 := by omega
      rw [gate_step_block s ip k (by omega) (by omega) hth]
      rw [show k + 1 = s.AUTO_BLOCK_THRESHOLD by omega]
      simp [runGate]
    · have hth : ¬(s.AUTO_BLOCK_THRESHOLD ≤ k + 1) := by omega
      rw [gate_step_mid s ip k (by omega) (by omega) hth]
      rw [ihj (k + 1) hj (by omega) hml hg]
      simp [List.replicate_succ]

/-- C7: for a client with no prior security state, `AUTO_BLOCK_THRESHOLD`
login requests that each reach the application and fail with 401 (they pass
the login and general rate limits) within a 15-minute span produce exactly
one IPBlock row, with reason 'auto', and exactly one `brute_force`
SecurityEvent, with severity 'critical', while every one of the requests is
forwarded and answered 401. -/
theorem brute_force_auto_block (s : Settings) (ip : String)
    (h1 : 1 ≤ s.AUTO_BLOCK_THRESHOLD)
    (h2 : s.AUTO_BLOCK_THRESHOLD ≤ s.MAX_LOGIN_ATTEMPTS)
    (h3 : s.AUTO_BLOCK_THRESHOLD ≤ s.MAX_API_CALLS_PER_MINUTE) :
    ∃ final : SecurityDB,
      runGate s emptyDB
          (List.replicate s.AUTO_BLOCK_THRESHOLD ((0 : Int), loginReq ip)) =
        (final, List.replicate s.AUTO_BLOCK_THRESHOLD (.forwarded 401)) ∧
      final.blocks.map (fun b => b.reason) = ["auto"] ∧
      (final.events.filter (fun e => e.event_type == "brute_force")).map
        (fun e => e.severity) = ["critical"] := by
  refine ⟨bruteFinalState s ip s.AUTO_BLOCK_THRESHOLD, ?_, ?_, ?_⟩
  · rcases Nat.lt_or_ge s.AUTO_BLOCK_THRESHOLD 2 with hT | hT
    · have hT1 : s.AUTO_BLOCK_THRESHOLD = 1 := by omega
      rw [hT1, List.replicate_succ, runGate_cons]
      rw [gate_step_first_block s ip (by omega) (by omega) (by omega)]
      simp [runGate]
    · obtain ⟨j, hj⟩ : ∃ j, s.AUTO_BLOCK_THRESHOLD = j + 1 :=
        ⟨s.AUTO_BLOCK_THRESHOLD - 1, by omega⟩
      rw [hj, List.replicate_succ, runGate_cons]
      rw [gate_step_first s ip (by omega) (by omega) (by omega)]
      rw [runGate_login_from_pre s ip j 1 (by omega) (by omega) h2 h3]
      rw [hj]
      simp [List.replicate_succ]
  · simp [bruteFinalState]
  · simp [bruteFinalState, List.filter_append, loginFailEv]

/-- Witness for C7: the spec settings (threshold 5, login limit 5, general
limit 60) and a fresh client. -/
theorem brute_force_auto_block_witness :
    ∃ final : SecurityDB,
      runGate specSettings emptyDB
          (List.replicate specSettings.AUTO_BLOCK_THRESHOLD
            ((0 : Int), loginReq "203.0.113.9")) =
        (final, List.replicate specSettings.AUTO_BLOCK_THRESHOLD (.forwarded 401)) ∧
      final.blocks.map (fun b => b.reason) = ["auto"] ∧
      (final.events.filter (fun e => e.event_type == "brute_force")).map
        (fun e => e.severity) = ["critical"] :=
  brute_force_auto_block specSettings "203.0.113.9" (by decide) (by decide) (by decide)

/-! ## C9: storage errors during telemetry writes -/

theorem createEventE_ok (db : SecurityDB) (wc : Nat) (ev : SecurityEventRow) :
    createEventE (fun _ => false) db wc ev =
      .ok ({ db with events := db.events ++ [ev] }, wc + 1) := rfl

theorem block_ipE_ok (db : SecurityDB) (wc : Nat) (now : Int) (ip reason : String)
    (d : Nat) (perm : Bool) (adm : Option String) (det : String) :
    block_ipE (fun _ => false) db wc now ip reason d perm adm det =
      .ok (block_ip db now ip reason d perm adm det, wc + 2) := rfl

theorem auto_block_ipE_ok (s : Settings) (db : SecurityDB) (wc : Nat) (now : Int)
    (ip reason : String) (c : Nat) :
    auto_block_ipE (fun _ => false) s db wc now ip reason c =
      .ok (auto_block_ip s db now ip reason c, wc + 2) := rfl

theorem exc_bind_ok {ε α β : Type} (x : α) (f : α → Except ε β) :
    (Except.ok x >>= f : Except ε β) = f x := rfl

theorem handle_failed_loginE_ok (s : Settings) (db : SecurityDB) (wc : Nat)
    (now : Int) (req : Request) :
    ∃ wc', handle_failed_loginE (fun _ => false) s db wc now req =
      .ok (handle_failed_login s db now req, wc') := by
  simp only [handle_failed_loginE, handle_failed_login, createEventE_ok,
    auto_block_ipE_ok, exc_bind_ok]
  split
  next h => exact ⟨wc + 1 + 2 + 1, rfl⟩
  next h => exact ⟨wc + 1, rfl⟩

theorem sensitiveCheckE_ok (s : Settings) (now : Int) (req : Request) :
    ∀ (rules : List EndpointRule) (db : SecurityDB) (wc : Nat),
      ∃ wc', sensitiveCheckE (fun _ => false) s db wc now req rules =
        .ok ((sensitiveCheck s db now req rules).1,
             (sensitiveCheck s db now req rules).2, wc') := by
  intro rules
  induction rules with
  | nil =>
    intro db wc
    exact ⟨wc, rfl⟩
  | cons rule rest ih =>
    intro db wc
    by_cases hsw : strStartsWith req.path rule.pathStart
    · rcases hchk : check_rate_limit db.trackers now req.ip rule.pathStart
          rule.max_requests rule.window with ⟨⟨allowed, count, reset⟩, tr⟩
      by_cases hall : allowed = true
      · subst hall
        obtain ⟨wc', hwc⟩ := ih { db with trackers := tr } wc
        refine ⟨wc', ?_⟩
        simp only [sensitiveCheckE, sensitiveCheck, hchk, hsw, if_true]
        exact hwc
      · have hfalse : allowed = false := by
          cases allowed
          · rfl
          · exact absurd rfl hall
        subst hfalse
        by_cases hesc : rule.max_requests + 5 < count
        · refine ⟨wc + 1 + 2, ?_⟩
          simp [sensitiveCheckE, sensitiveCheck, hchk, hsw, hesc,
            createEventE_ok, auto_block_ipE_ok, exc_bind_ok]
        · refine ⟨wc + 1, ?_⟩
          simp [sensitiveCheckE, sensitiveCheck, hchk, hsw, hesc, createEventE_ok,
            exc_bind_ok]
    · simpa only [sensitiveCheckE, sensitiveCheck, hsw, if_false] using ih db wc

theorem generalCheckE_ok (s : Settings) (db : SecurityDB) (wc : Nat) (now : Int)
    (req : Request) :
    ∃ wc', generalCheckE (fun _ => false) s db wc now req =
      .ok ((generalCheck s db now req).1, (generalCheck s db now req).2, wc') := by
  by_cases hsw : strStartsWith req.path "/api/"
  · rcases hchk : check_rate_limit db.trackers now req.ip "api_general"
        s.MAX_API_CALLS_PER_MINUTE 60 with ⟨⟨allowed, count, reset⟩, tr⟩
    by_cases hall : allowed = true
    · subst hall
      refine ⟨wc, ?_⟩
      simp [generalCheckE, generalCheck, hchk, hsw]
    · have hfalse : allowed = false := by
        cases allowed
        · rfl
        · exact absurd rfl hall
      subst hfalse
      by_cases hesc : s.MAX_API_CALLS_PER_MINUTE * 3 < count
      · refine ⟨wc + 1 + 2 + 1, ?_⟩
        simp [generalCheckE, generalCheck, hchk, hsw, hesc,
          createEventE_ok, auto_block_ipE_ok, exc_bind_ok]
      · refine ⟨wc + 1, ?_⟩
        simp [generalCheckE, generalCheck, hchk, hsw, hesc, createEventE_ok,
          exc_bind_ok]
  · refine ⟨wc, ?_⟩
    simp [generalCheckE, generalCheck, hsw]

/-- C9 amended: the source does not catch storage errors around its telemetry
writes, so the gate's outcome is unchanged only when every write succeeds —
with a never-failing store the fallible middleware returns exactly the
decision of the infallible one — whereas a raising write propagates out of
the middleware instead of the already-decided response (see the
counterexample). -/
theorem middleware_ok_when_writes_succeed (s : Settings) (db : SecurityDB) (wc : Nat)
    (now : Int) (req : Request) :
    ∃ wc', securityMiddlewareE (fun _ => false) s db wc now req =
      .ok ((securityMiddleware s db now req).1,
           (securityMiddleware s db now req).2, wc') := by
  by_cases hblk : is_ip_blocked db now req.ip
  · refine ⟨wc + 1, ?_⟩
    simp [securityMiddlewareE, securityMiddleware, hblk, createEventE_ok, exc_bind_ok]
  · obtain ⟨wc1, hsc⟩ := sensitiveCheckE_ok s now req (SENSITIVE_ENDPOINTS s) db wc
    rcases hscp : sensitiveCheck s db now req (SENSITIVE_ENDPOINTS s) with ⟨o, db1⟩
    rw [hscp] at hsc
    cases o with
    | some resp =>
      refine ⟨wc1, ?_⟩
      simp [securityMiddlewareE, securityMiddleware, hblk, hsc, hscp, exc_bind_ok]
    | none =>
      obtain ⟨wc2, hgc⟩ := generalCheckE_ok s db1 wc1 now req
      rcases hgcp : generalCheck s db1 now req with ⟨o2, db2⟩
      rw [hgcp] at hgc
      cases o2 with
      | some resp =>
        refine ⟨wc2, ?_⟩
        simp [securityMiddlewareE, securityMiddleware, hblk, hsc, hscp, hgc, hgcp, exc_bind_ok]
      | none =>
        by_cases hlog : strStartsWith req.path "/api/auth/token/login/" &&
            req.appStatus == 401
        · obtain ⟨wc3, hfl⟩ := handle_failed_loginE_ok s db2 wc2 now req
          by_cases hreg : strStartsWith req.path "/api/auth/users/" &&
              req.method == "POST" && req.appStatus == 201
          · refine ⟨wc3 + 1, ?_⟩
            simp [securityMiddlewareE, securityMiddleware, hblk, hsc, hscp, hgc,
              hgcp, hlog, hreg, hfl, createEventE_ok, exc_bind_ok]
          · refine ⟨wc3, ?_⟩
            simp [securityMiddlewareE, securityMiddleware, hblk, hsc, hscp, hgc,
              hgcp, hlog, hreg, hfl, exc_bind_ok]
        · by_cases hreg : strStartsWith req.path "/api/auth/users/" &&
              req.method == "POST" && req.appStatus == 201
          · refine ⟨wc2 + 1, ?_⟩
            simp [securityMiddlewareE, securityMiddleware, hblk, hsc, hscp, hgc,
              hgcp, hlog, hreg, createEventE_ok, exc_bind_ok]
          · refine ⟨wc2, ?_⟩
            simp [securityMiddlewareE, securityMiddleware, hblk, hsc, hscp, hgc,
              hgcp, hlog, hreg, exc_bind_ok]

/-- C9 counterexample: with a permanent block on the client and the first
telemetry write raising, the middleware propagates the storage error instead
of the decided 403 — the write failure does change what reaches the caller. -/
theorem event_write_failure_changes_response_cex :
    securityMiddlewareE (fun _ => true) specSettings permBlockDB 0 0
        (apiReq "1.2.3.4") = .error () ∧
    (securityMiddleware specSettings permBlockDB 0 (apiReq "1.2.3.4")).1 =
      .accessDenied ∧
    ¬(securityMiddlewareE (fun _ => true) specSettings permBlockDB 0 0
        (apiReq "1.2.3.4") =
      .ok ((securityMiddleware specSettings permBlockDB 0 (apiReq "1.2.3.4")).1,
           (securityMiddleware specSettings permBlockDB 0 (apiReq "1.2.3.4")).2, 1)) := by
  decide

end Tdc
